import Mathlib

/-!
Shallow embedding of `src/app/main.py` (a small kafka-python demo):
`produce_messages` sends the fixed payload b"Hello, Kafka!" to topic
"test_topic" and flushes; `consume_messages` opens a consumer on the same
topic with auto_offset_reset="earliest" and consumer_timeout_ms=5000,
prints each received message after UTF-8 decoding and sleeps 1 s per
message; the `__main__` block runs produce, `time.sleep(2)`, consume,
under two catch-all handlers that print the exception and fall through.

The broker is the external collaborator: we model the "test_topic" log as
a `List (List Nat)` of byte payloads, and the outcomes of the networked
calls (producer construction/flush, consumer construction) as explicit
environment parameters, since the Python code delegates them to the
kafka library.  Python bytes are `List Nat`, Python `None` returned by a
function without a `return` statement is `Option.none` at the type the
caller expects, and a raised exception is `Except.error`.
-/

/-- Python byte strings: lists of byte values. -/
abbrev Bytes := List Nat

/-- The exceptions the program can see: `kafka.errors.KafkaError`,
`UnicodeDecodeError` from `bytes.decode("utf-8")`, and any other
exception (the second catch-all's bucket). -/
inductive PyExn where
  | kafkaError (m : String)
  | unicodeDecodeError
  | otherError (m : String)
deriving DecidableEq, Repr

/-- A UTF-8 continuation byte (10xxxxxx). -/
def isCont (b : Nat) : Bool := 128 ≤ b && b < 192

/-- Model of Python `bytes.decode("utf-8")`: returns the decoded code
points, or `none` when the byte sequence is not valid UTF-8 (in which
case the Python call raises `UnicodeDecodeError`). -/
def decodeUtf8 : Bytes → Option (List Nat)
  | [] => some []
  | b :: rest =>
    if b < 128 then
      (decodeUtf8 rest).map (fun t => b :: t)
    else if b < 194 then none
    else if b < 224 then
      match rest with
      | b1 :: rest2 =>
        if isCont b1 then
          (decodeUtf8 rest2).map (fun t => ((b - 192) * 64 + (b1 - 128)) :: t)
        else none
      | [] => none
    else if b < 240 then
      match rest with
      | b1 :: b2 :: rest3 =>
        if isCont b1 && isCont b2 then
          let cp := (b - 224) * 4096 + (b1 - 128) * 64 + (b2 - 128)
          if cp < 2048 || (55296 ≤ cp && cp < 57344) then none
          else (decodeUtf8 rest3).map (fun t => cp :: t)
        else none
      | _ => none
    else if b < 245 then
      match rest with
      | b1 :: b2 :: b3 :: rest4 =>
        if isCont b1 && isCont b2 && isCont b3 then
          let cp := (b - 240) * 262144 + (b1 - 128) * 4096 + (b2 - 128) * 64 + (b3 - 128)
          if cp < 65536 || 1114111 < cp then none
          else (decodeUtf8 rest4).map (fun t => cp :: t)
        else none
      | _ => none
    else none

/-- Turn decoded code points into a Lean string. -/
def stringOfCps (cps : List Nat) : String := String.mk (cps.map Char.ofNat)

/-- `p.decode("utf-8")` as the code uses it: the decoded string, or a
raised `UnicodeDecodeError`. -/
def decodeOrRaise (p : Bytes) : Except PyExn String :=
  match decodeUtf8 p with
  | some cps => Except.ok (stringOfCps cps)
  | none => Except.error PyExn.unicodeDecodeError

/-- The fixed payload the program publishes: b"Hello, Kafka!". -/
def helloBytes : Bytes := [72, 101, 108, 108, 111, 44, 32, 75, 97, 102, 107, 97, 33]

example : decodeOrRaise helloBytes = Except.ok "Hello, Kafka!" := rfl
example : decodeUtf8 [255] = none := by decide
example : decodeUtf8 [195, 169] = some [233] := by decide
example : decodeUtf8 [195] = none := by decide

/-!
## Publisher: `produce_messages`

```python
def produce_messages():
    producer = KafkaProducer(bootstrap_servers='localhost:9092')
    message = b'Hello, Kafka!'
    producer.send('test_topic', value=message)
    producer.flush()
    print("Message sent successfully: " + message.decode('utf-8'))
```

On the broker side a successful send+flush appends the payload at the end
of the topic log (its offset is the previous log length).  The function
has no `return`, so Python returns `None`; viewed at the result type the
spec claims for `publish`, that is `Option.none : Option PublishResult`.
Failures of the networked calls raise and are not caught here.
-/

/-- The result type the spec assigns to a publish attempt.  The Python
code never constructs such a value; it is declared here to state what
`produce_messages` would have to return for the spec's claims to hold. -/
structure PublishResult where
  delivered : Bool
  topic : String
  offset : Option Nat
  error : Option String
deriving DecidableEq, Repr

/-- Outcome of the producer-side broker interaction, decided by the
external kafka library/broker: either the broker accepts and acknowledges
the message, or one of the calls raises. -/
inductive SendOutcome where
  | accepted
  | connectError (m : String)
  | flushError (m : String)
  | otherError (m : String)
deriving DecidableEq, Repr

/-- What a run of `produce_messages` produces when it returns normally:
the topic log after the append, the lines printed, and the function's
return value (Python `None`). -/
structure ProduceReturn where
  log : List Bytes
  prints : List String
  ret : Option PublishResult
deriving DecidableEq, Repr

/-- Embedding of `produce_messages`, parameterised by the broker outcome
and the current "test_topic" log.  On `accepted`, the payload is appended
to the log, the success line is printed and `None` is returned; on any
failure the corresponding exception propagates out (`KafkaError` for
connection/flush failures, anything else for the rest). -/
def produce_messages (o : SendOutcome) (log : List Bytes) : Except PyExn ProduceReturn :=
  match o with
  | SendOutcome.accepted =>
    match decodeOrRaise helloBytes with
    | Except.error e => Except.error e
    | Except.ok s =>
      Except.ok { log := log ++ [helloBytes]
                  prints := ["Message sent successfully: " ++ s]
                  ret := none }
  | SendOutcome.connectError m => Except.error (PyExn.kafkaError m)
  | SendOutcome.flushError m => Except.error (PyExn.kafkaError m)
  | SendOutcome.otherError m => Except.error (PyExn.otherError m)

/-!
## Receiver: `consume_messages`

```python
def consume_messages():
    consumer = KafkaConsumer(
        'test_topic',
        bootstrap_servers='localhost:9092',
        auto_offset_reset='earliest',
        consumer_timeout_ms=5000)
    for message in consumer:
        print(f"Received message: {message.value.decode('utf-8')}")
        time.sleep(1)  # Simulate processing time
```

With `auto_offset_reset='earliest'` (and no committed group offset) the
iterator hands out every payload retained in the topic log, oldest
first; once the log is drained and no further traffic arrives, the
iterator stops after `consumer_timeout_ms` of inactivity.  A payload
that fails to decode raises `UnicodeDecodeError` out of the loop body,
terminating the iteration.  Elapsed time is modelled as the sum of the
explicit waits: 1000 ms of `time.sleep(1)` per processed message plus
the final 5000 ms inactivity window on normal termination.
-/

/-- The configured inactivity timeout (`consumer_timeout_ms=5000`). -/
def consumer_timeout_ms : Nat := 5000

/-- Whether the `KafkaConsumer(...)` construction succeeds or raises. -/
inductive ConsumeConn where
  | ok
  | connError (m : String)
deriving DecidableEq, Repr

/-- What a run of `consume_messages` produces: the payloads whose loop
body completed, the lines printed, the exception that terminated the
loop (if any), and the elapsed waiting time in milliseconds. -/
structure ConsumeResult where
  yielded : List Bytes
  prints : List String
  err : Option PyExn
  elapsedMs : Nat
deriving DecidableEq, Repr

/-- The `for message in consumer:` loop over the buffered payloads. -/
def consume_loop : List Bytes → ConsumeResult
  | [] => { yielded := [], prints := [], err := none, elapsedMs := 0 }
  | p :: rest =>
    match decodeOrRaise p with
    | Except.error e => { yielded := [], prints := [], err := some e, elapsedMs := 0 }
    | Except.ok s =>
      let r := consume_loop rest
      { yielded := p :: r.yielded
        prints := ("Received message: " ++ s) :: r.prints
        err := r.err
        elapsedMs := 1000 + r.elapsedMs }

/-- Embedding of `consume_messages`, parameterised by the consumer
construction outcome and the retained topic log.  On a normal drain the
final inactivity timeout (5000 ms) elapses before the iterator stops;
when the loop is terminated by an exception, the exception propagates at
that point. -/
def consume_messages (cc : ConsumeConn) (log : List Bytes) : ConsumeResult :=
  match cc with
  | ConsumeConn.connError m =>
    { yielded := [], prints := [], err := some (PyExn.kafkaError m), elapsedMs := 0 }
  | ConsumeConn.ok =>
    let r := consume_loop log
    match r.err with
    | none => { r with elapsedMs := r.elapsedMs + consumer_timeout_ms }
    | some _ => r

/-!
## `__main__`

```python
if __name__ == "__main__":
    try:
        produce_messages()
        time.sleep(2)  # Ensure the message is sent before consuming
        consume_messages()
    except KafkaError as e:
        print(f"An error occurred: {e}")
    except Exception as e:
        print(f"An unexpected error occurred: {e}")
```

Both handlers print and fall through; the script then reaches its end,
so the interpreter exits with status 0 in every modelled run.
-/

/-- The line printed by the matching `except` handler for an exception:
`KafkaError` hits the first handler, everything else the second. -/
def errorLine : PyExn → String
  | PyExn.kafkaError m => "An error occurred: " ++ m
  | PyExn.unicodeDecodeError => "An unexpected error occurred: UnicodeDecodeError"
  | PyExn.otherError m => "An unexpected error occurred: " ++ m

/-- The environment of one run: what the external broker does on the
producer side and on the consumer-construction side. -/
structure RunEnv where
  send : SendOutcome
  conn : ConsumeConn
deriving DecidableEq, Repr

/-- Observable outcome of one run of the script. -/
structure RunResult where
  log : List Bytes
  prints : List String
  yielded : List Bytes
  consumeEntered : Bool
  caught : Option PyExn
  exitCode : Nat
deriving DecidableEq, Repr

/-- Embedding of the `__main__` block: `produce_messages()`, then
`time.sleep(2)`, then `consume_messages()`, inside the two catch-all
handlers.  If `produce_messages` raises, `consume_messages` is never
called; any caught exception is printed by its handler and the script
falls off the end, so the exit code is 0 in every case. -/
def mainRun (env : RunEnv) (log0 : List Bytes) : RunResult :=
  match produce_messages env.send log0 with
  | Except.error e =>
    { log := log0, prints := [errorLine e], yielded := []
      consumeEntered := false, caught := some e, exitCode := 0 }
  | Except.ok r =>
    let c := consume_messages env.conn r.log
    match c.err with
    | some e =>
      { log := r.log, prints := r.prints ++ c.prints ++ [errorLine e]
        yielded := c.yielded, consumeEntered := true, caught := some e, exitCode := 0 }
    | none =>
      { log := r.log, prints := r.prints ++ c.prints
        yielded := c.yielded, consumeEntered := true, caught := none, exitCode := 0 }

/-!
## Event trace

For the ordering and resource claims we record the externally visible
events of a run in order.  `closeProducerEv`/`closeConsumerEv` stand for
the kafka clients' `close()` calls; the source never invokes them, so no
trace below contains one.
-/

/-- Externally visible events of a run. -/
inductive Event where
  | sendEv
  | flushEv
  | sleepEv (ms : Nat)
  | consumerStart
  | recvEv (p : Bytes)
  | closeProducerEv
  | closeConsumerEv
deriving DecidableEq, Repr

/-- Events of the receive loop: each message is pulled, and after a
successful decode+print the 1 s processing sleep runs; a decode failure
ends the loop at that message. -/
def recvEvents : List Bytes → List Event
  | [] => []
  | p :: rest =>
    match decodeOrRaise p with
    | Except.error _ => [Event.recvEv p]
    | Except.ok _ => Event.recvEv p :: Event.sleepEv 1000 :: recvEvents rest

/-- Events of `consume_messages`: nothing if the consumer cannot be
constructed, otherwise the subscription start followed by the loop. -/
def consumeEvents (cc : ConsumeConn) (log : List Bytes) : List Event :=
  match cc with
  | ConsumeConn.connError _ => []
  | ConsumeConn.ok => Event.consumerStart :: recvEvents log

/-- Events of `produce_messages`: send then flush when the broker
accepts; a connection failure happens before the send, a flush failure
after it. -/
def produceEvents : SendOutcome → List Event
  | SendOutcome.accepted => [Event.sendEv, Event.flushEv]
  | SendOutcome.connectError _ => []
  | SendOutcome.flushError _ => [Event.sendEv]
  | SendOutcome.otherError _ => []

/-- Event trace of one run of `__main__`: the producer's events, then —
when the publish succeeded — the fixed `time.sleep(2)` and the
consumer's events over the log that now holds the published payload. -/
def mainTrace (env : RunEnv) (log0 : List Bytes) : List Event :=
  match env.send with
  | SendOutcome.accepted =>
    produceEvents SendOutcome.accepted ++ [Event.sleepEv 2000]
      ++ consumeEvents env.conn (log0 ++ [helloBytes])
  | o => produceEvents o

/-- Number of client `close()` events in a trace. -/
def countClose (t : List Event) : Nat :=
  (t.filter (fun e => e = Event.closeProducerEv || e = Event.closeConsumerEv)).length

/-!
## Helper lemmas
-/

/-- When every buffered payload decodes, the loop processes the whole
log in order, ends without an exception, and sleeps 1 s per message. -/
theorem consume_loop_all_ok (log : List Bytes)
    (h : ∀ p ∈ log, (decodeUtf8 p).isSome = true) :
    (consume_loop log).yielded = log ∧ (consume_loop log).err = none ∧
      (consume_loop log).elapsedMs = 1000 * log.length := by
  induction log with
  | nil => exact ⟨rfl, rfl, rfl⟩
  | cons p rest ih =>
    have hp : (decodeUtf8 p).isSome = true := h p (List.mem_cons_self p rest)
    rcases Option.isSome_iff_exists.mp hp with ⟨cps, hcps⟩
    have ihr := ih (fun q hq => h q (List.mem_cons_of_mem p hq))
    simp only [consume_loop, decodeOrRaise, hcps]
    refine ⟨?_, ?_, ?_⟩
    · simp [ihr.1]
    · simp [ihr.2.1]
    · simp [ihr.2.2]; ring

/-- A payload that fails to decode terminates the loop at that point:
the messages before it are processed, it and everything after it are
not, and the loop ends with the decode exception. -/
theorem consume_loop_stops_at_bad (pre post : List Bytes) (bad : Bytes)
    (hpre : ∀ p ∈ pre, (decodeUtf8 p).isSome = true)
    (hbad : decodeUtf8 bad = none) :
    (consume_loop (pre ++ bad :: post)).yielded = pre ∧
      (consume_loop (pre ++ bad :: post)).err = some PyExn.unicodeDecodeError := by
  induction pre with
  | nil =>
    constructor
    · show (consume_loop (bad :: post)).yielded = []
      simp [consume_loop, decodeOrRaise, hbad]
    · show (consume_loop (bad :: post)).err = some PyExn.unicodeDecodeError
      simp [consume_loop, decodeOrRaise, hbad]
  | cons p rest ih =>
    have hp : (decodeUtf8 p).isSome = true := hpre p (List.mem_cons_self p rest)
    rcases Option.isSome_iff_exists.mp hp with ⟨cps, hcps⟩
    have ihr := ih (fun q hq => hpre q (List.mem_cons_of_mem p hq))
    simp only [List.cons_append, consume_loop, decodeOrRaise, hcps]
    exact ⟨by simp [ihr.1], by simp [ihr.2]⟩

/-- The receive loop emits no `close()` event. -/
theorem countClose_recvEvents (l : List Bytes) : countClose (recvEvents l) = 0 := by
  induction l with
  | nil => rfl
  | cons p rest ih =>
    simp only [recvEvents]
    cases hd : decodeOrRaise p with
    | error e => rfl
    | ok s => simp [countClose, List.filter] at ih ⊢; exact ih

/-!
## Claims
-/

/-- C1: under normal (no-failure) conditions — broker accepts the
publish, consumer construction succeeds, topic initially empty — the
published payload b"Hello, Kafka!" is received exactly once by the
subsequent from-earliest consumer, the run ends without an exception,
and the two expected lines are printed. -/
theorem c1_round_trip (env : RunEnv)
    (hsend : env.send = SendOutcome.accepted) (hconn : env.conn = ConsumeConn.ok) :
    (mainRun env []).yielded = [helloBytes] ∧ (mainRun env []).caught = none ∧
      (mainRun env []).prints =
        ["Message sent successfully: Hello, Kafka!", "Received message: Hello, Kafka!"] := by
  rcases env with ⟨s, c⟩
  cases hsend
  cases hconn
  decide

/-- Witness for C1 at the concrete no-failure environment. -/
theorem c1_round_trip_witness :
    (mainRun ⟨SendOutcome.accepted, ConsumeConn.ok⟩ []).yielded = [helloBytes] ∧
      (mainRun ⟨SendOutcome.accepted, ConsumeConn.ok⟩ []).caught = none ∧
      (mainRun ⟨SendOutcome.accepted, ConsumeConn.ok⟩ []).prints =
        ["Message sent successfully: Hello, Kafka!", "Received message: Hello, Kafka!"] :=
  c1_round_trip ⟨SendOutcome.accepted, ConsumeConn.ok⟩ rfl rfl

/-- C3: the receiver never blocks indefinitely — over any finite
buffered log whose payloads decode, the sequence drains the buffered
messages and terminates, and its elapsed waiting time is exactly the
configured `consumer_timeout_ms` inactivity window plus the 1 s
per-message processing sleep. -/
theorem c3_receiver_terminates (log : List Bytes)
    (h : ∀ p ∈ log, (decodeUtf8 p).isSome = true) :
    (consume_messages ConsumeConn.ok log).yielded = log ∧
      (consume_messages ConsumeConn.ok log).err = none ∧
      (consume_messages ConsumeConn.ok log).elapsedMs =
        consumer_timeout_ms + 1000 * log.length := by
  rcases consume_loop_all_ok log h with ⟨h1, h2, h3⟩
  refine ⟨?_, ?_, ?_⟩
  · simp [consume_messages, h1, h2]
  · simp [consume_messages, h2]
  · simp [consume_messages, h2, h3]
    omega

/-- Witness for C3 on a two-message buffered log. -/
theorem c3_receiver_terminates_witness :
    (∀ p ∈ [helloBytes, helloBytes], (decodeUtf8 p).isSome = true) ∧
      ((consume_messages ConsumeConn.ok [helloBytes, helloBytes]).yielded =
          [helloBytes, helloBytes] ∧
        (consume_messages ConsumeConn.ok [helloBytes, helloBytes]).err = none ∧
        (consume_messages ConsumeConn.ok [helloBytes, helloBytes]).elapsedMs =
          consumer_timeout_ms + 1000 * (List.length [helloBytes, helloBytes])) :=
  ⟨by decide, c3_receiver_terminates [helloBytes, helloBytes] (by decide)⟩

/-- C5 counterexample: the consumer has no `max_messages` cap — with
five messages available it yields five elements, not three. -/
theorem c5_no_cap_counterexample :
    (consume_messages ConsumeConn.ok
        [helloBytes, helloBytes, helloBytes, helloBytes, helloBytes]).yielded.length = 5 ∧
      (consume_messages ConsumeConn.ok
        [helloBytes, helloBytes, helloBytes, helloBytes, helloBytes]).yielded.length ≠ 3 := by
  decide

/-- C5 amended: `consume_messages` accepts no `max_messages` option and
imposes no cap on the sequence: over any buffered log of decodable
payloads it yields every available message. -/
theorem c5_yields_all_available (log : List Bytes)
    (h : ∀ p ∈ log, (decodeUtf8 p).isSome = true) :
    (consume_messages ConsumeConn.ok log).yielded.length = log.length := by
  rcases consume_loop_all_ok log h with ⟨h1, h2, _⟩
  simp [consume_messages, h1, h2]

/-- Witness for the amended C5 on a five-message buffered log. -/
theorem c5_yields_all_available_witness :
    (∀ p ∈ [helloBytes, helloBytes, helloBytes, helloBytes, helloBytes],
        (decodeUtf8 p).isSome = true) ∧
      (consume_messages ConsumeConn.ok
          [helloBytes, helloBytes, helloBytes, helloBytes, helloBytes]).yielded.length =
        (List.length [helloBytes, helloBytes, helloBytes, helloBytes, helloBytes]) :=
  ⟨by decide, c5_yields_all_available
    [helloBytes, helloBytes, helloBytes, helloBytes, helloBytes] (by decide)⟩

/-- C8: a payload that fails to decode terminates the receive sequence
at that message with the decode exception as the terminal error: the
messages before it are processed, and nothing after it is processed —
skip-and-continue never happens. -/
theorem c8_malformed_terminates (pre post : List Bytes) (bad : Bytes)
    (hpre : ∀ p ∈ pre, (decodeUtf8 p).isSome = true)
    (hbad : decodeUtf8 bad = none) :
    (consume_messages ConsumeConn.ok (pre ++ bad :: post)).yielded = pre ∧
      (consume_messages ConsumeConn.ok (pre ++ bad :: post)).err =
        some PyExn.unicodeDecodeError := by
  rcases consume_loop_stops_at_bad pre post bad hpre hbad with ⟨h1, h2⟩
  constructor
  · simp [consume_messages, h1, h2]
  · simp [consume_messages, h2]

/-- Witness for C8: one good message, then the invalid byte 0xFF, then
another good message; only the first is processed. -/
theorem c8_malformed_terminates_witness :
    ((∀ p ∈ [helloBytes], (decodeUtf8 p).isSome = true) ∧ decodeUtf8 [255] = none) ∧
      ((consume_messages ConsumeConn.ok ([helloBytes] ++ [255] :: [helloBytes])).yielded =
          [helloBytes] ∧
        (consume_messages ConsumeConn.ok ([helloBytes] ++ [255] :: [helloBytes])).err =
          some PyExn.unicodeDecodeError) :=
  ⟨⟨by decide, by decide⟩,
    c8_malformed_terminates [helloBytes] [helloBytes] [255] (by decide) (by decide)⟩

/-- C2 counterexample: when the broker is unreachable, the publish path
raises `KafkaError` past its boundary — the call's outcome is an
exception, not a returned result value. -/
theorem c2_publish_raises_counterexample :
    produce_messages (SendOutcome.connectError "NoBrokersAvailable") [] =
        Except.error (PyExn.kafkaError "NoBrokersAvailable") ∧
      (produce_messages (SendOutcome.connectError "NoBrokersAvailable") []).isOk = false :=
  ⟨rfl, rfl⟩

/-- C2 amended: `produce_messages` has no failure result at all — on
every non-accepted broker outcome the exception propagates out of the
function to the top-level handlers, so callers see failure only as a
control-flow escape. -/
theorem c2_failure_escapes (o : SendOutcome) (log : List Bytes)
    (h : o ≠ SendOutcome.accepted) :
    ∃ e : PyExn, produce_messages o log = Except.error e := by
  cases o with
  | accepted => exact absurd rfl h
  | connectError m => exact ⟨PyExn.kafkaError m, rfl⟩
  | flushError m => exact ⟨PyExn.kafkaError m, rfl⟩
  | otherError m => exact ⟨PyExn.otherError m, rfl⟩

/-- Witness for the amended C2 at a concrete connection failure. -/
theorem c2_failure_escapes_witness :
    SendOutcome.connectError "NoBrokersAvailable" ≠ SendOutcome.accepted ∧
      ∃ e : PyExn, produce_messages (SendOutcome.connectError "NoBrokersAvailable") [] =
        Except.error e :=
  ⟨by decide, c2_failure_escapes (SendOutcome.connectError "NoBrokersAvailable") [] (by decide)⟩

/-- C4 counterexample: on a successful publish the function completes
normally but its return value is Python `None` — no `PublishResult`
with `delivered=true` and an offset is returned. -/
theorem c4_returns_none_counterexample :
    (produce_messages SendOutcome.accepted []).isOk = true ∧
      (produce_messages SendOutcome.accepted []).toOption.bind ProduceReturn.ret = none :=
  ⟨rfl, rfl⟩

/-- C4 amended: a successful `produce_messages` appends the payload at
the end of the topic log (so the broker-assigned offset is the previous
log length, trivially non-negative), prints the success line, and
returns `None` — it surfaces no delivered flag and no offset. -/
theorem c4_success_appends_no_result (log : List Bytes) :
    produce_messages SendOutcome.accepted log =
      Except.ok { log := log ++ [helloBytes]
                  prints := ["Message sent successfully: Hello, Kafka!"]
                  ret := none } := rfl

/-- C6: whenever the run reaches the consumer, the trace is the
producer's send then flush (broker acknowledgement), then the fixed
2 s grace sleep, then the subscription start — so the flush strictly
precedes the receiver's start, with the grace delay between them. -/
theorem c6_flush_before_consumer (env : RunEnv) (log0 : List Bytes)
    (hsend : env.send = SendOutcome.accepted) (hconn : env.conn = ConsumeConn.ok) :
    mainTrace env log0 =
      [Event.sendEv, Event.flushEv, Event.sleepEv 2000, Event.consumerStart]
        ++ recvEvents (log0 ++ [helloBytes]) := by
  rcases env with ⟨s, c⟩
  cases hsend
  cases hconn
  rfl

/-- Witness for C6 at the concrete no-failure environment and an
initially empty topic. -/
theorem c6_flush_before_consumer_witness :
    mainTrace ⟨SendOutcome.accepted, ConsumeConn.ok⟩ [] =
      [Event.sendEv, Event.flushEv, Event.sleepEv 2000, Event.consumerStart]
        ++ recvEvents ([] ++ [helloBytes]) :=
  c6_flush_before_consumer ⟨SendOutcome.accepted, ConsumeConn.ok⟩ [] rfl rfl

/-- C7 counterexample: in the normal successful run neither client is
ever closed — the trace contains zero `close()` events, not exactly
one per component. -/
theorem c7_never_closed_counterexample :
    countClose (mainTrace ⟨SendOutcome.accepted, ConsumeConn.ok⟩ []) = 0 ∧
      countClose (mainTrace ⟨SendOutcome.accepted, ConsumeConn.ok⟩ []) ≠ 1 := by
  decide

/-- C7 amended: the program never calls `close()` on the producer or
the consumer on any path — every run's trace contains zero close
events; releasing the connections is left to the interpreter. -/
theorem c7_no_close_any_run (env : RunEnv) (log0 : List Bytes) :
    countClose (mainTrace env log0) = 0 := by
  have hrecv := countClose_recvEvents (log0 ++ [helloBytes])
  rcases env with ⟨s, c⟩
  cases s with
  | accepted =>
    cases c with
    | ok =>
      simp only [mainTrace, produceEvents, consumeEvents, countClose,
        List.filter_append, List.length_append] at hrecv ⊢
      simp [hrecv]
    | connError m => rfl
  | connectError m => rfl
  | flushError m => rfl
  | otherError m => rfl

/-- C9 counterexample: a run whose publish fails with a broker
connection error surfaces the failure — yet the process exit code is 0,
not non-zero, because the handler prints and falls through. -/
theorem c9_exit_zero_counterexample :
    (mainRun ⟨SendOutcome.connectError "NoBrokersAvailable", ConsumeConn.ok⟩ []).caught =
        some (PyExn.kafkaError "NoBrokersAvailable") ∧
      (mainRun ⟨SendOutcome.connectError "NoBrokersAvailable", ConsumeConn.ok⟩ []).exitCode
        = 0 := by
  decide

/-- C9 amended: every failure the program surfaces is printed as the
matching handler's line (the two-bucket classification with the raw
exception text appended), and the process then exits 0 — the exit code
never reflects the failure. -/
theorem c9_classified_exit_zero (env : RunEnv) (log0 : List Bytes) (e : PyExn)
    (h : (mainRun env log0).caught = some e) :
    (mainRun env log0).prints.getLast? = some (errorLine e) ∧
      (mainRun env log0).exitCode = 0 := by
  rcases hp : produce_messages env.send log0 with e0 | r
  · simp only [mainRun, hp, Option.some.injEq] at h
    subst h
    simp only [mainRun, hp]
    exact ⟨rfl, trivial⟩
  · rcases hc : (consume_messages env.conn r.log).err with _ | e0
    · simp only [mainRun, hp, hc] at h
      exact absurd h (by simp)
    · simp only [mainRun, hp, hc, Option.some.injEq] at h
      subst h
      simp only [mainRun, hp, hc]
      refine ⟨?_, trivial⟩
      rw [List.getLast?_append_cons]
      rfl

/-- Witness for the amended C9 at a concrete failing run. -/
theorem c9_classified_exit_zero_witness :
    (mainRun ⟨SendOutcome.flushError "KafkaTimeoutError", ConsumeConn.ok⟩ []).caught =
        some (PyExn.kafkaError "KafkaTimeoutError") ∧
      ((mainRun ⟨SendOutcome.flushError "KafkaTimeoutError", ConsumeConn.ok⟩ []).prints.getLast?
          = some (errorLine (PyExn.kafkaError "KafkaTimeoutError")) ∧
        (mainRun ⟨SendOutcome.flushError "KafkaTimeoutError", ConsumeConn.ok⟩ []).exitCode
          = 0) :=
  ⟨rfl, c9_classified_exit_zero ⟨SendOutcome.flushError "KafkaTimeoutError", ConsumeConn.ok⟩
    [] (PyExn.kafkaError "KafkaTimeoutError") rfl⟩

/-- C10: if `produce_messages` raises, the `except` handler takes over:
`consume_messages` is never entered, nothing is received, and the run's
entire output is the single error line of the matching handler. -/
theorem c10_publish_failure_skips_consume (env : RunEnv) (log0 : List Bytes) (e : PyExn)
    (h : produce_messages env.send log0 = Except.error e) :
    (mainRun env log0).consumeEntered = false ∧ (mainRun env log0).yielded = [] ∧
      (mainRun env log0).prints = [errorLine e] := by
  simp [mainRun, h]

/-- Witness for C10 at a concrete publish failure. -/
theorem c10_publish_failure_skips_consume_witness :
    produce_messages (SendOutcome.connectError "ConnRefused") [] =
        Except.error (PyExn.kafkaError "ConnRefused") ∧
      ((mainRun ⟨SendOutcome.connectError "ConnRefused", ConsumeConn.ok⟩ []).consumeEntered
          = false ∧
        (mainRun ⟨SendOutcome.connectError "ConnRefused", ConsumeConn.ok⟩ []).yielded = [] ∧
        (mainRun ⟨SendOutcome.connectError "ConnRefused", ConsumeConn.ok⟩ []).prints =
          [errorLine (PyExn.kafkaError "ConnRefused")]) :=
  ⟨rfl, c10_publish_failure_skips_consume ⟨SendOutcome.connectError "ConnRefused", ConsumeConn.ok⟩
    [] (PyExn.kafkaError "ConnRefused") rfl⟩
